import Mathlib

/-!
Shallow embedding of the client-side scripts of `kra_etims_frappe`
(four JavaScript files wiring Frappe form/list buttons to remote calls):

  * `kra_etims/doctype/etims_user/etims_user.js`
  * `kra_etims/doctype/etims_registered_imported_item/etims_registered_imported_item_list.js`
  * `kra_etims_frappe/doctype/etims_registered_stock_movement/etims_registered_stock_movement_list.js`
  * `kra_etims_frappe/overrides/client/branch_list.js`

Each handler is translated into a Lean function producing a list of UI
effects; `frappe.call` invocations become `RemoteCall` records whose
success/error callbacks are translated as separate top-level functions.
Script-level loading (JavaScript `const` redeclaration being an early
SyntaxError) is modelled by `loadScript` over a statement list.
-/

/-- A JavaScript value as far as this code observes them: document field
values are opaque, request payloads are flat objects. -/
inductive JSVal where
  | undef
  | null
  | bool (b : Bool)
  | num (n : Int)
  | str (s : String)
  | obj (fields : List (String × JSVal))
deriving Repr

/-- JavaScript strict comparison `v === false` as used in
`branch_list.js` line 85 (`response.message === false`): true exactly on
the boolean literal `false`. -/
def isJsFalse : JSVal → Bool
  | JSVal.bool false => true
  | _ => false

/-- One `frappe.call({...})` invocation: the server method name, the
`args` object (a flat list of key/value pairs), and the optional
`freeze` overlay with its message.  The success and error callbacks are
modelled as separate named functions. -/
structure RemoteCall where
  method : String
  args : List (String × JSVal)
  freeze : Bool
  freezeMessage : Option String
deriving Repr

/-- A client-visible UI effect a handler or callback can perform.
`cancelCall`/`retryCall` are in the effect language so that their
absence from every translated handler is expressible; the source never
performs them. -/
inductive Effect where
  | msgprint (s : String)
  | consoleLog (s : String)
  | addCustomButton (label : String) (group : Option String)
  | addInnerButton (label : String)
  | issueCall (c : RemoteCall)
  | cancelCall
  | retryCall
deriving Repr

/-- The remote calls issued within a list of effects. -/
def callsOf (es : List Effect) : List RemoteCall :=
  es.filterMap fun e =>
    match e with
    | Effect.issueCall c => some c
    | _ => none

/-- The labels of all buttons (form or list-view) added by a list of
effects. -/
def buttonLabels (es : List Effect) : List String :=
  es.filterMap fun e =>
    match e with
    | Effect.addCustomButton l _ => some l
    | Effect.addInnerButton l => some l
    | _ => none

/-- Look up a key in a JS object literal (first occurrence wins, as in
a JS object with distinct keys). -/
def lookupField (fields : List (String × JSVal)) (k : String) : Option JSVal :=
  match fields with
  | [] => none
  | (k2, v) :: rest => if k2 = k then some v else lookupField rest k

/-- The field names of a call's `request_data` payload, in source
order; `[]` when the call has no `request_data` object. -/
def requestDataFields (c : RemoteCall) : List String :=
  match lookupField c.args "request_data" with
  | some (JSVal.obj fields) => fields.map Prod.fst
  | _ => []

/-- The value of one field of a call's `request_data` payload. -/
def requestDataLookup (c : RemoteCall) (k : String) : Option JSVal :=
  match lookupField c.args "request_data" with
  | some (JSVal.obj fields) => lookupField fields k
  | _ => none

/-- `frappe.boot.sysdefaults` as read by every handler. -/
structure SysDefaults where
  company : JSVal

/-- `frappe.boot`. -/
structure Boot where
  sysdefaults : SysDefaults

/-- The server's response object as seen by a success callback
(`response.message`). -/
structure Response where
  message : JSVal

/-- The fields of an `eTims User` document read by `etims_user.js`. -/
structure EtimsUserDoc where
  name : JSVal
  system_user : JSVal
  users_full_names : JSVal
  custom_etims_branch_id : JSVal
  owner : JSVal
  modified_by : JSVal

/-- The fields of an `eTims Registered Purchases` document read by
`branch_list.js`. -/
structure RegisteredPurchasesDoc where
  name : JSVal
  supplier_name : JSVal
  supplier_pin : JSVal
  supplier_branch_id : JSVal
  supplier_invoice_number : JSVal
  sales_date : JSVal
  items : JSVal

/-- A form object `frm`: the current document and `frm.is_new()`. -/
structure FormObj (Doc : Type) where
  doc : Doc
  is_new : Bool

/- Server method names, exactly as the strings in the source. -/

def saveBranchUserDetailsMethod : String :=
  "kra_etims_frappe.kra_etims.apis.apis.save_branch_user_details"

def performImportItemSearchAllBranchesMethod : String :=
  "kra_etims_frappe.kra_etims.apis.apis.perform_import_item_search_all_branches"

def searchBranchRequestMethod : String :=
  "kra_etims_frappe.kra_etims_frappe.apis.apis.search_branch_request"

def createSupplierMethod : String :=
  "kra_etims_frappe.kra_etims_frappe.apis.apis.create_supplier_from_fetched_registered_purchases"

def validateItemsMethod : String :=
  "kra_etims_frappe.kra_etims_frappe.doctype.etims_registered_purchases.etims_registered_purchases.validate_item_mapped_and_registered"

def createItemsMethod : String :=
  "kra_etims_frappe.kra_etims_frappe.apis.apis.create_items_from_fetched_registered_purchases"

def createPurchaseInvoiceMethod : String :=
  "kra_etims_frappe.kra_etims_frappe.apis.apis.create_purchase_invoice_from_request"

def performPurchasesSearchAllBranchesMethod : String :=
  "kra_etims_frappe.kra_etims_frappe.apis.apis.perform_purchases_search_all_branches"

def createBranchUserMethod : String :=
  "kra_etims_frappe.kra_etims_frappe.apis.apis.create_branch_user"

def performStockMovementSearchAllBranchesMethod : String :=
  "kra_etims_frappe.kra_etims_frappe.apis.apis.perform_stock_movement_search_all_branches"

/-! ### `etims_user.js` — eTims User form -/

/-- The `frappe.call` built by the Submit Branch User Details click
handler (`etims_user.js` lines 11-33). -/
def saveBranchUserDetailsCall (frm : FormObj EtimsUserDoc) (companyName : JSVal) : RemoteCall :=
  { method := saveBranchUserDetailsMethod
    args := [("request_data", JSVal.obj
      [("name", frm.doc.name),
       ("company_name", companyName),
       ("user_id", frm.doc.system_user),
       ("full_names", frm.doc.users_full_names),
       ("branch_id", frm.doc.custom_etims_branch_id),
       ("registration_id", frm.doc.owner),
       ("modifier_id", frm.doc.modified_by)])]
    freeze := true
    freezeMessage := some "Sending request to eTIMS… Please wait" }

/-- Click handler of the Submit Branch User Details button. -/
def submitBranchUserDetailsClick (frm : FormObj EtimsUserDoc) (companyName : JSVal) : List Effect :=
  [Effect.issueCall (saveBranchUserDetailsCall frm companyName)]

/-- Success callback of the save_branch_user_details call
(`etims_user.js` lines 27-29). -/
def saveBranchUserDetailsCallback (_response : Response) : List Effect :=
  [Effect.msgprint "Request queued. Please check in later."]

/-- Error callback of the save_branch_user_details call
(`etims_user.js` lines 30-32): comment only. -/
def saveBranchUserDetailsError (_r : JSVal) : List Effect := []

/-- The `refresh` handler of the eTims User form (`etims_user.js`
lines 4-38): adds the Submit Branch User Details button under the
eTims Actions group when the document is not new. -/
def etimsUserRefresh (frm : FormObj EtimsUserDoc) (_boot : Boot) : List Effect :=
  if !frm.is_new then
    [Effect.addCustomButton "Submit Branch User Details" (some "eTims Actions")]
  else []

/-! ### `etims_registered_imported_item_list.js` — imported-items list view -/

/-- The `frappe.call` built by the Get Imported Items click handler. -/
def getImportedItemsCall (companyName : JSVal) : RemoteCall :=
  { method := performImportItemSearchAllBranchesMethod
    args := [("request_data", JSVal.obj [("company_name", companyName)])]
    freeze := true
    freezeMessage := some "Sending request to eTIMS… Please wait" }

/-- Click handler of the Get Imported Items list button. -/
def getImportedItemsClick (companyName : JSVal) : List Effect :=
  [Effect.issueCall (getImportedItemsCall companyName)]

/-- Success callback of the perform_import_item_search_all_branches
call (`etims_registered_imported_item_list.js` line 20): empty. -/
def getImportedItemsCallback (_response : Response) : List Effect := []

/-- Error callback of the perform_import_item_search_all_branches call:
comment only. -/
def getImportedItemsError (_error : JSVal) : List Effect := []

/-- `onload` of the eTims Registered Imported Item list view: adds the
Get Imported Items inner button. -/
def importedItemListOnload (_boot : Boot) : List Effect :=
  [Effect.addInnerButton "Get Imported Items"]

/-! ### `etims_registered_stock_movement_list.js` — stock-movement list view -/

/-- The `frappe.call` built by the Get Stock Movements click handler. -/
def getStockMovementsCall (companyName : JSVal) : RemoteCall :=
  { method := performStockMovementSearchAllBranchesMethod
    args := [("request_data", JSVal.obj [("company_name", companyName)])]
    freeze := false
    freezeMessage := none }

/-- Click handler of the Get Stock Movements list button. -/
def getStockMovementsClick (companyName : JSVal) : List Effect :=
  [Effect.issueCall (getStockMovementsCall companyName)]

/-- Success callback of the perform_stock_movement_search_all_branches
call: empty. -/
def getStockMovementsCallback (_response : Response) : List Effect := []

/-- Error callback of the perform_stock_movement_search_all_branches
call: empty. -/
def getStockMovementsError (_error : JSVal) : List Effect := []

/-- `onload` of the eTims Registered Stock Movement list view: adds the
Get Stock Movements inner button. -/
def stockMovementListOnload (_boot : Boot) : List Effect :=
  [Effect.addInnerButton "Get Stock Movements"]

/-! ### `branch_list.js` — four handler registrations in one script -/

/-- The `frappe.call` built by the Get Branches click handler
(`branch_list.js` lines 8-22). -/
def getBranchesCall (companyName : JSVal) : RemoteCall :=
  { method := searchBranchRequestMethod
    args := [("request_data", JSVal.obj [("company_name", companyName)])]
    freeze := false
    freezeMessage := none }

/-- Click handler of the Get Branches list button. -/
def getBranchesClick (companyName : JSVal) : List Effect :=
  [Effect.issueCall (getBranchesCall companyName)]

/-- Success callback of the search_branch_request call
(`branch_list.js` lines 16-18): a console log only. -/
def getBranchesCallback (_response : Response) : List Effect :=
  [Effect.consoleLog "Request queued. Please check in later"]

/-- Error callback of the search_branch_request call: comment only. -/
def getBranchesError (_error : JSVal) : List Effect := []

/-- `onload` of the Branch list view (`branch_list.js` lines 4-24). -/
def branchListOnload (_boot : Boot) : List Effect :=
  [Effect.addInnerButton "Get Branches"]

/-- The `frappe.call` built by the Create Supplier click handler
(`branch_list.js` lines 37-53). -/
def createSupplierCall (frm : FormObj RegisteredPurchasesDoc) (companyName : JSVal) : RemoteCall :=
  { method := createSupplierMethod
    args := [("request_data", JSVal.obj
      [("name", frm.doc.name),
       ("company_name", companyName),
       ("supplier_name", frm.doc.supplier_name),
       ("supplier_pin", frm.doc.supplier_pin),
       ("supplier_branch_id", frm.doc.supplier_branch_id)])]
    freeze := false
    freezeMessage := none }

/-- Click handler of the Create Supplier button. -/
def createSupplierClick (frm : FormObj RegisteredPurchasesDoc) (companyName : JSVal) : List Effect :=
  [Effect.issueCall (createSupplierCall frm companyName)]

/-- Success callback of the create_supplier call
(`branch_list.js` line 49): empty. -/
def createSupplierCallback (_response : Response) : List Effect := []

/-- Error callback of the create_supplier call: comment only. -/
def createSupplierError (_error : JSVal) : List Effect := []

/-- The validation `frappe.call` issued directly by the refresh handler
(`branch_list.js` lines 79-83); note its `args` carry `items` directly,
not wrapped in `request_data`. -/
def validateItemsCall (frm : FormObj RegisteredPurchasesDoc) : RemoteCall :=
  { method := validateItemsMethod
    args := [("items", frm.doc.items)]
    freeze := false
    freezeMessage := none }

/-- Success callback of the validate_item_mapped_and_registered call
(`branch_list.js` lines 84-107): adds the Create Items button exactly
when `response.message === false`. -/
def validateItemsCallback (response : Response) : List Effect :=
  if isJsFalse response.message then
    [Effect.addCustomButton "Create Items" (some "eTims Actions")]
  else []

/-- Error callback of the validate_item_mapped_and_registered call
(`branch_list.js` lines 108-110): shows a message. -/
def validateItemsError (_error : JSVal) : List Effect :=
  [Effect.msgprint "Failed to validate items."]

/-- The `frappe.call` built by the Create Items click handler
(`branch_list.js` lines 89-102, inside the validate callback). -/
def createItemsCall (frm : FormObj RegisteredPurchasesDoc) (companyName : JSVal) : RemoteCall :=
  { method := createItemsMethod
    args := [("request_data", JSVal.obj
      [("name", frm.doc.name),
       ("company_name", companyName),
       ("items", frm.doc.items)])]
    freeze := false
    freezeMessage := none }

/-- Click handler of the Create Items button. -/
def createItemsClick (frm : FormObj RegisteredPurchasesDoc) (companyName : JSVal) : List Effect :=
  [Effect.issueCall (createItemsCall frm companyName)]

/-- Success callback of the create_items call (`branch_list.js`
line 99): empty. -/
def createItemsCallback (_response : Response) : List Effect := []

/-- Error callback of the create_items call (`branch_list.js`
lines 100-101): empty. -/
def createItemsError (_error : JSVal) : List Effect := []

/-- The `frappe.call` built by the Create Purchase Invoice click
handler (`branch_list.js` lines 116-135): `supplier_invoice_no` is
taken from `supplier_invoice_number`, `supplier_invoice_date` from
`sales_date`. -/
def createPurchaseInvoiceCall (frm : FormObj RegisteredPurchasesDoc) (companyName : JSVal) : RemoteCall :=
  { method := createPurchaseInvoiceMethod
    args := [("request_data", JSVal.obj
      [("name", frm.doc.name),
       ("company_name", companyName),
       ("supplier_name", frm.doc.supplier_name),
       ("supplier_pin", frm.doc.supplier_pin),
       ("supplier_branch_id", frm.doc.supplier_branch_id),
       ("supplier_invoice_no", frm.doc.supplier_invoice_number),
       ("supplier_invoice_date", frm.doc.sales_date),
       ("items", frm.doc.items)])]
    freeze := false
    freezeMessage := none }

/-- Click handler of the Create Purchase Invoice button. -/
def createPurchaseInvoiceClick (frm : FormObj RegisteredPurchasesDoc) (companyName : JSVal) : List Effect :=
  [Effect.issueCall (createPurchaseInvoiceCall frm companyName)]

/-- Success callback of the create_purchase_invoice call
(`branch_list.js` line 131): empty. -/
def createPurchaseInvoiceCallback (_response : Response) : List Effect := []

/-- Error callback of the create_purchase_invoice call: comment
only. -/
def createPurchaseInvoiceError (_error : JSVal) : List Effect := []

/-- The `refresh` handler of the eTims Registered Purchases form
(`branch_list.js` lines 30-162): when the document is not new it adds
the Create Supplier button, issues the validation call, and adds the
Create Purchase Invoice button; otherwise it does nothing. -/
def registeredPurchasesRefresh (frm : FormObj RegisteredPurchasesDoc) (_boot : Boot) : List Effect :=
  if !frm.is_new then
    [Effect.addCustomButton "Create Supplier" (some "eTims Actions"),
     Effect.issueCall (validateItemsCall frm),
     Effect.addCustomButton "Create Purchase Invoice" (some "eTims Actions")]
  else []

/-- The `frappe.call` built by the Get Raised Purchases click handler
(`branch_list.js` lines 174-186). -/
def getRaisedPurchasesCall (companyName : JSVal) : RemoteCall :=
  { method := performPurchasesSearchAllBranchesMethod
    args := [("request_data", JSVal.obj [("company_name", companyName)])]
    freeze := false
    freezeMessage := none }

/-- Click handler of the Get Raised Purchases list button. -/
def getRaisedPurchasesClick (companyName : JSVal) : List Effect :=
  [Effect.issueCall (getRaisedPurchasesCall companyName)]

/-- Success callback of the perform_purchases_search_all_branches call
(`branch_list.js` line 182): empty. -/
def getRaisedPurchasesCallback (_response : Response) : List Effect := []

/-- Error callback of the perform_purchases_search_all_branches call:
comment only. -/
def getRaisedPurchasesError (_error : JSVal) : List Effect := []

/-- `onload` of the eTims Registered Purchases list view
(`branch_list.js` lines 168-189). -/
def registeredPurchasesListOnload (_boot : Boot) : List Effect :=
  [Effect.addInnerButton "Get Raised Purchases"]

/-- The `frappe.call` built by the Create from Current System Users
click handler (`branch_list.js` lines 201-213). -/
def createFromSystemUsersCall (companyName : JSVal) : RemoteCall :=
  { method := createBranchUserMethod
    args := [("request_data", JSVal.obj [("company_name", companyName)])]
    freeze := false
    freezeMessage := none }

/-- Click handler of the Create from Current System Users list
button. -/
def createFromSystemUsersClick (companyName : JSVal) : List Effect :=
  [Effect.issueCall (createFromSystemUsersCall companyName)]

/-- Success callback of the create_branch_user call (`branch_list.js`
line 209): empty. -/
def createFromSystemUsersCallback (_response : Response) : List Effect := []

/-- Error callback of the create_branch_user call: comment only. -/
def createFromSystemUsersError (_error : JSVal) : List Effect := []

/-- `onload` of the eTims User list view (`branch_list.js`
lines 194-216). -/
def etimsUserListOnload (_boot : Boot) : List Effect :=
  [Effect.addInnerButton "Create from Current System Users"]

/-! ### Script loading: JavaScript `const` redeclaration semantics -/

/-- The handler registrations these scripts can perform
(`frappe.ui.form.on` / `frappe.listview_settings[...] = ...`). -/
inductive Handler where
  | etimsUserForm
  | importedItemListview
  | stockMovementListview
  | branchListview
  | registeredPurchasesForm
  | registeredPurchasesListview
  | etimsUserListview
deriving DecidableEq, Repr

/-- A top-level statement of one of these scripts: a `const`
declaration or a handler registration. -/
inductive TopStmt where
  | constDecl (n : String)
  | register (h : Handler)
deriving DecidableEq, Repr

/-- The names bound by top-level `const` declarations, in order. -/
def declaredConstNames (s : List TopStmt) : List String :=
  s.filterMap fun st =>
    match st with
    | TopStmt.constDecl n => some n
    | TopStmt.register _ => none

/-- The handler registrations a script would perform if it ran. -/
def registrationsOf (s : List TopStmt) : List Handler :=
  s.filterMap fun st =>
    match st with
    | TopStmt.register h => some h
    | TopStmt.constDecl _ => none

/-- Loading a script: duplicate lexical (`const`) declarations in one
script scope are an early SyntaxError in JavaScript, rejecting the
whole script before any statement runs; otherwise every registration
statement executes.  Returns the handlers that actually attach, or
`none` when the script fails to load. -/
def loadScript (s : List TopStmt) : Option (List Handler) :=
  if (declaredConstNames s).Nodup then some (registrationsOf s) else none

/-- The top-level statements of `etims_user.js`. -/
def etimsUserScript : List TopStmt :=
  [TopStmt.constDecl "doctypeName",
   TopStmt.register Handler.etimsUserForm]

/-- The top-level statements of
`etims_registered_imported_item_list.js`. -/
def importedItemListScript : List TopStmt :=
  [TopStmt.constDecl "doctypeName",
   TopStmt.register Handler.importedItemListview]

/-- The top-level statements of
`etims_registered_stock_movement_list.js`. -/
def stockMovementListScript : List TopStmt :=
  [TopStmt.constDecl "doctypeName",
   TopStmt.register Handler.stockMovementListview]

/-- The top-level statements of `branch_list.js`: four `const
doctypeName` declarations (lines 1, 27, 165, 192), each followed by a
handler registration. -/
def branchListScript : List TopStmt :=
  [TopStmt.constDecl "doctypeName",
   TopStmt.register Handler.branchListview,
   TopStmt.constDecl "doctypeName",
   TopStmt.register Handler.registeredPurchasesForm,
   TopStmt.constDecl "doctypeName",
   TopStmt.register Handler.registeredPurchasesListview,
   TopStmt.constDecl "doctypeName",
   TopStmt.register Handler.etimsUserListview]

/-! ### The registry of every `frappe.call` site in the code -/

/-- One `frappe.call` site: its fixed method string, its success
callback and its error callback. -/
structure CallSite where
  method : String
  callbackAt : Response → List Effect
  errorAt : JSVal → List Effect

/-- All ten `frappe.call` sites appearing in the four scripts. -/
def allCallSites : List CallSite :=
  [{ method := saveBranchUserDetailsMethod
     callbackAt := saveBranchUserDetailsCallback
     errorAt := saveBranchUserDetailsError },
   { method := performImportItemSearchAllBranchesMethod
     callbackAt := getImportedItemsCallback
     errorAt := getImportedItemsError },
   { method := performStockMovementSearchAllBranchesMethod
     callbackAt := getStockMovementsCallback
     errorAt := getStockMovementsError },
   { method := searchBranchRequestMethod
     callbackAt := getBranchesCallback
     errorAt := getBranchesError },
   { method := createSupplierMethod
     callbackAt := createSupplierCallback
     errorAt := createSupplierError },
   { method := validateItemsMethod
     callbackAt := validateItemsCallback
     errorAt := validateItemsError },
   { method := createItemsMethod
     callbackAt := createItemsCallback
     errorAt := createItemsError },
   { method := createPurchaseInvoiceMethod
     callbackAt := createPurchaseInvoiceCallback
     errorAt := createPurchaseInvoiceError },
   { method := performPurchasesSearchAllBranchesMethod
     callbackAt := getRaisedPurchasesCallback
     errorAt := getRaisedPurchasesError },
   { method := createBranchUserMethod
     callbackAt := createFromSystemUsersCallback
     errorAt := createFromSystemUsersError }]

/-- Fire-and-forget: the effect list neither issues, cancels nor
retries any remote call. -/
def fireAndForget (es : List Effect) : Bool :=
  es.all fun e =>
    match e with
    | Effect.issueCall _ => false
    | Effect.cancelCall => false
    | Effect.retryCall => false
    | _ => true

/-- A click-handler effect list issues exactly one remote call, to the
fixed method `m`, whose `request_data` payload has exactly the field
names `fields` (in order). -/
def clickIssuesOne (es : List Effect) (m : String) (fields : List String) : Prop :=
  ∃ c, callsOf es = [c] ∧ c.method = m ∧ requestDataFields c = fields

/-- A click-handler effect list issues exactly one remote call, to the
fixed method `m`, whose `request_data` payload is exactly the single
field `company_name` carrying the value `cn`. -/
def clickSendsCompanyOnly (es : List Effect) (m : String) (cn : JSVal) : Prop :=
  ∃ c, callsOf es = [c] ∧ c.method = m ∧
    requestDataFields c = ["company_name"] ∧
    requestDataLookup c "company_name" = some cn

/-- A concrete saved (non-new) eTims User form, for witnesses. -/
def sampleUserFrm : FormObj EtimsUserDoc :=
  { doc :=
      { name := JSVal.str "ETU-0001"
        system_user := JSVal.str "user@example.com"
        users_full_names := JSVal.str "Jane Doe"
        custom_etims_branch_id := JSVal.str "00"
        owner := JSVal.str "admin@example.com"
        modified_by := JSVal.str "admin@example.com" }
    is_new := false }

/-- A concrete saved (non-new) eTims Registered Purchases form, for
witnesses. -/
def samplePurchFrm : FormObj RegisteredPurchasesDoc :=
  { doc :=
      { name := JSVal.str "ERP-0001"
        supplier_name := JSVal.str "Supplies Ltd"
        supplier_pin := JSVal.str "P051234567A"
        supplier_branch_id := JSVal.str "01"
        supplier_invoice_number := JSVal.str "INV-42"
        sales_date := JSVal.str "2024-01-31"
        items := JSVal.obj [("item_name", JSVal.str "Widget")] }
    is_new := false }

/-- A concrete `frappe.boot`, for witnesses. -/
def sampleBoot : Boot :=
  { sysdefaults := { company := JSVal.str "Acme Ltd" } }

/-! ## Theorems -/

/-- C1: `branch_list.js` declares the top-level `const doctypeName`
binding four times in one script scope (lines 1, 27, 165, 192), a
JavaScript redeclaration error, so the script fails to load and none of
its four handlers (Branch list onload, eTims Registered Purchases form
refresh, eTims Registered Purchases list onload, eTims User list
onload) is ever attached. -/
theorem branchListScript_fails_to_load :
    declaredConstNames branchListScript =
      ["doctypeName", "doctypeName", "doctypeName", "doctypeName"] ∧
    registrationsOf branchListScript =
      [Handler.branchListview, Handler.registeredPurchasesForm,
       Handler.registeredPurchasesListview, Handler.etimsUserListview] ∧
    loadScript branchListScript = none := by
  refine ⟨rfl, rfl, ?_⟩
  decide

/-- C2 counterexample: it is not the case that every call site's error
callback is empty (performs no client-visible action): the
validate_item_mapped_and_registered call's error callback shows the
message "Failed to validate items.". -/
theorem not_every_error_callback_empty :
    ¬ (∀ site ∈ allCallSites, ∀ e, site.errorAt e = []) := by
  intro h
  have hmem : CallSite.mk validateItemsMethod validateItemsCallback validateItemsError
      ∈ allCallSites := by
    simp [allCallSites]
  have h2 := h _ hmem JSVal.undef
  simp [validateItemsError] at h2

/-- C2 amended: every call site's error callback performs no
client-visible action, except the validate_item_mapped_and_registered
call, whose error callback shows exactly the message "Failed to
validate items.". -/
theorem error_callbacks_silent_except_validate :
    ∀ site ∈ allCallSites, ∀ e,
      site.errorAt e = [] ∨
      (site.method = validateItemsMethod ∧
       site.errorAt e = [Effect.msgprint "Failed to validate items."]) := by
  intro site hmem e
  simp [allCallSites] at hmem
  rcases hmem with rfl | rfl | rfl | rfl | rfl | rfl | rfl | rfl | rfl | rfl <;>
    simp [saveBranchUserDetailsError, getImportedItemsError, getStockMovementsError,
      getBranchesError, createSupplierError, validateItemsError, createItemsError,
      createPurchaseInvoiceError, getRaisedPurchasesError, createFromSystemUsersError]

/-- Witness for the amended C2 theorem, at the
validate_item_mapped_and_registered call site and error value
`undefined`. -/
theorem error_callbacks_silent_except_validate_witness :
    validateItemsError JSVal.undef = [] ∨
    (validateItemsMethod = validateItemsMethod ∧
     validateItemsError JSVal.undef = [Effect.msgprint "Failed to validate items."]) := by
  have hmem : CallSite.mk validateItemsMethod validateItemsCallback validateItemsError
      ∈ allCallSites := by
    simp [allCallSites]
  exact error_callbacks_silent_except_validate _ hmem JSVal.undef

/-- C4: on every non-new eTims User form the refresh handler adds the
Submit Branch User Details button (group eTims Actions), and clicking
it issues exactly one call to save_branch_user_details whose
`request_data` payload has exactly the fields name, company_name,
user_id, full_names, branch_id, registration_id, modifier_id, taken
respectively from the document name, the system default company, and
the document's system_user, users_full_names, custom_etims_branch_id,
owner and modified_by fields. -/
theorem submitBranchUserDetails_button_and_payload
    (frm : FormObj EtimsUserDoc) (boot : Boot) (h : frm.is_new = false) :
    etimsUserRefresh frm boot =
      [Effect.addCustomButton "Submit Branch User Details" (some "eTims Actions")] ∧
    ∃ c, callsOf (submitBranchUserDetailsClick frm boot.sysdefaults.company) = [c] ∧
      c.method = saveBranchUserDetailsMethod ∧
      requestDataFields c = ["name", "company_name", "user_id", "full_names",
        "branch_id", "registration_id", "modifier_id"] ∧
      requestDataLookup c "name" = some frm.doc.name ∧
      requestDataLookup c "company_name" = some boot.sysdefaults.company ∧
      requestDataLookup c "user_id" = some frm.doc.system_user ∧
      requestDataLookup c "full_names" = some frm.doc.users_full_names ∧
      requestDataLookup c "branch_id" = some frm.doc.custom_etims_branch_id ∧
      requestDataLookup c "registration_id" = some frm.doc.owner ∧
      requestDataLookup c "modifier_id" = some frm.doc.modified_by := by
  constructor
  · simp [etimsUserRefresh, h]
  · exact ⟨saveBranchUserDetailsCall frm boot.sysdefaults.company,
      rfl, rfl, rfl, rfl, rfl, rfl, rfl, rfl, rfl, rfl⟩

/-- Witness for C4 at a concrete saved form and boot record. -/
theorem submitBranchUserDetails_button_and_payload_witness :
    sampleUserFrm.is_new = false ∧
    (etimsUserRefresh sampleUserFrm sampleBoot =
      [Effect.addCustomButton "Submit Branch User Details" (some "eTims Actions")] ∧
    ∃ c, callsOf (submitBranchUserDetailsClick sampleUserFrm sampleBoot.sysdefaults.company) = [c] ∧
      c.method = saveBranchUserDetailsMethod ∧
      requestDataFields c = ["name", "company_name", "user_id", "full_names",
        "branch_id", "registration_id", "modifier_id"] ∧
      requestDataLookup c "name" = some sampleUserFrm.doc.name ∧
      requestDataLookup c "company_name" = some sampleBoot.sysdefaults.company ∧
      requestDataLookup c "user_id" = some sampleUserFrm.doc.system_user ∧
      requestDataLookup c "full_names" = some sampleUserFrm.doc.users_full_names ∧
      requestDataLookup c "branch_id" = some sampleUserFrm.doc.custom_etims_branch_id ∧
      requestDataLookup c "registration_id" = some sampleUserFrm.doc.owner ∧
      requestDataLookup c "modifier_id" = some sampleUserFrm.doc.modified_by) :=
  ⟨rfl, submitBranchUserDetails_button_and_payload sampleUserFrm sampleBoot rfl⟩

/-- C5: on every non-new eTims Registered Purchases form the refresh
handler adds the Create Purchase Invoice button, and clicking it
issues exactly one call to create_purchase_invoice_from_request whose
`request_data` payload has exactly the fields name, company_name,
supplier_name, supplier_pin, supplier_branch_id, supplier_invoice_no,
supplier_invoice_date, items, with supplier_invoice_no taken from the
document's supplier_invoice_number field and supplier_invoice_date
from its sales_date field.  (The enclosing script fails to load at
runtime — see the theorem on `branchListScript` — so this describes
the handler as defined.) -/
theorem createPurchaseInvoice_button_and_payload
    (frm : FormObj RegisteredPurchasesDoc) (boot : Boot) (h : frm.is_new = false) :
    Effect.addCustomButton "Create Purchase Invoice" (some "eTims Actions") ∈
      registeredPurchasesRefresh frm boot ∧
    ∃ c, callsOf (createPurchaseInvoiceClick frm boot.sysdefaults.company) = [c] ∧
      c.method = createPurchaseInvoiceMethod ∧
      requestDataFields c = ["name", "company_name", "supplier_name", "supplier_pin",
        "supplier_branch_id", "supplier_invoice_no", "supplier_invoice_date", "items"] ∧
      requestDataLookup c "supplier_invoice_no" = some frm.doc.supplier_invoice_number ∧
      requestDataLookup c "supplier_invoice_date" = some frm.doc.sales_date := by
  constructor
  · simp [registeredPurchasesRefresh, h]
  · exact ⟨createPurchaseInvoiceCall frm boot.sysdefaults.company,
      rfl, rfl, rfl, rfl, rfl⟩

/-- Witness for C5 at a concrete saved form and boot record. -/
theorem createPurchaseInvoice_button_and_payload_witness :
    samplePurchFrm.is_new = false ∧
    (Effect.addCustomButton "Create Purchase Invoice" (some "eTims Actions") ∈
      registeredPurchasesRefresh samplePurchFrm sampleBoot ∧
    ∃ c, callsOf (createPurchaseInvoiceClick samplePurchFrm sampleBoot.sysdefaults.company) = [c] ∧
      c.method = createPurchaseInvoiceMethod ∧
      requestDataFields c = ["name", "company_name", "supplier_name", "supplier_pin",
        "supplier_branch_id", "supplier_invoice_no", "supplier_invoice_date", "items"] ∧
      requestDataLookup c "supplier_invoice_no" = some samplePurchFrm.doc.supplier_invoice_number ∧
      requestDataLookup c "supplier_invoice_date" = some samplePurchFrm.doc.sales_date) :=
  ⟨rfl, createPurchaseInvoice_button_and_payload samplePurchFrm sampleBoot rfl⟩

/-- C6: each of the five list views (imported items, branch,
registered purchases, eTims User, stock movement) gets exactly one
inner button from this code, and clicking any of them issues exactly
one remote call whose `request_data` payload is exactly the single
field company_name carrying `frappe.boot.sysdefaults.company`. -/
theorem listview_buttons_send_company_only (boot : Boot) :
    importedItemListOnload boot = [Effect.addInnerButton "Get Imported Items"] ∧
    branchListOnload boot = [Effect.addInnerButton "Get Branches"] ∧
    registeredPurchasesListOnload boot = [Effect.addInnerButton "Get Raised Purchases"] ∧
    etimsUserListOnload boot = [Effect.addInnerButton "Create from Current System Users"] ∧
    stockMovementListOnload boot = [Effect.addInnerButton "Get Stock Movements"] ∧
    clickSendsCompanyOnly (getImportedItemsClick boot.sysdefaults.company)
      performImportItemSearchAllBranchesMethod boot.sysdefaults.company ∧
    clickSendsCompanyOnly (getBranchesClick boot.sysdefaults.company)
      searchBranchRequestMethod boot.sysdefaults.company ∧
    clickSendsCompanyOnly (getRaisedPurchasesClick boot.sysdefaults.company)
      performPurchasesSearchAllBranchesMethod boot.sysdefaults.company ∧
    clickSendsCompanyOnly (createFromSystemUsersClick boot.sysdefaults.company)
      createBranchUserMethod boot.sysdefaults.company ∧
    clickSendsCompanyOnly (getStockMovementsClick boot.sysdefaults.company)
      performStockMovementSearchAllBranchesMethod boot.sysdefaults.company :=
  ⟨rfl, rfl, rfl, rfl, rfl,
   ⟨getImportedItemsCall boot.sysdefaults.company, rfl, rfl, rfl, rfl⟩,
   ⟨getBranchesCall boot.sysdefaults.company, rfl, rfl, rfl, rfl⟩,
   ⟨getRaisedPurchasesCall boot.sysdefaults.company, rfl, rfl, rfl, rfl⟩,
   ⟨createFromSystemUsersCall boot.sysdefaults.company, rfl, rfl, rfl, rfl⟩,
   ⟨getStockMovementsCall boot.sysdefaults.company, rfl, rfl, rfl, rfl⟩⟩

/-- C7: each of the nine buttons added by this code issues, per click,
exactly one remote call, to its fixed endpoint, with exactly the
payload fields the external-interface table lists for that endpoint. -/
theorem every_button_click_issues_exactly_one_call :
    (∀ (frm : FormObj EtimsUserDoc) (cn : JSVal),
      clickIssuesOne (submitBranchUserDetailsClick frm cn) saveBranchUserDetailsMethod
        ["name", "company_name", "user_id", "full_names", "branch_id",
         "registration_id", "modifier_id"]) ∧
    (∀ (frm : FormObj RegisteredPurchasesDoc) (cn : JSVal),
      clickIssuesOne (createSupplierClick frm cn) createSupplierMethod
        ["name", "company_name", "supplier_name", "supplier_pin", "supplier_branch_id"]) ∧
    (∀ (frm : FormObj RegisteredPurchasesDoc) (cn : JSVal),
      clickIssuesOne (createItemsClick frm cn) createItemsMethod
        ["name", "company_name", "items"]) ∧
    (∀ (frm : FormObj RegisteredPurchasesDoc) (cn : JSVal),
      clickIssuesOne (createPurchaseInvoiceClick frm cn) createPurchaseInvoiceMethod
        ["name", "company_name", "supplier_name", "supplier_pin", "supplier_branch_id",
         "supplier_invoice_no", "supplier_invoice_date", "items"]) ∧
    (∀ cn : JSVal, clickIssuesOne (getBranchesClick cn) searchBranchRequestMethod
      ["company_name"]) ∧
    (∀ cn : JSVal, clickIssuesOne (getImportedItemsClick cn)
      performImportItemSearchAllBranchesMethod ["company_name"]) ∧
    (∀ cn : JSVal, clickIssuesOne (getRaisedPurchasesClick cn)
      performPurchasesSearchAllBranchesMethod ["company_name"]) ∧
    (∀ cn : JSVal, clickIssuesOne (createFromSystemUsersClick cn)
      createBranchUserMethod ["company_name"]) ∧
    (∀ cn : JSVal, clickIssuesOne (getStockMovementsClick cn)
      performStockMovementSearchAllBranchesMethod ["company_name"]) :=
  ⟨fun frm cn => ⟨saveBranchUserDetailsCall frm cn, rfl, rfl, rfl⟩,
   fun frm cn => ⟨createSupplierCall frm cn, rfl, rfl, rfl⟩,
   fun frm cn => ⟨createItemsCall frm cn, rfl, rfl, rfl⟩,
   fun frm cn => ⟨createPurchaseInvoiceCall frm cn, rfl, rfl, rfl⟩,
   fun cn => ⟨getBranchesCall cn, rfl, rfl, rfl⟩,
   fun cn => ⟨getImportedItemsCall cn, rfl, rfl, rfl⟩,
   fun cn => ⟨getRaisedPurchasesCall cn, rfl, rfl, rfl⟩,
   fun cn => ⟨createFromSystemUsersCall cn, rfl, rfl, rfl⟩,
   fun cn => ⟨getStockMovementsCall cn, rfl, rfl, rfl⟩⟩

/-- C8: on refresh of a non-new eTims Registered Purchases form the
only call issued immediately is validate_item_mapped_and_registered,
carrying the document's items directly in its args; its success
callback adds the Create Items button exactly when the response
message is strictly `false`; its error callback shows "Failed to
validate items." and adds no button. -/
theorem purchases_refresh_validate_gating
    (frm : FormObj RegisteredPurchasesDoc) (boot : Boot) (h : frm.is_new = false) :
    callsOf (registeredPurchasesRefresh frm boot) = [validateItemsCall frm] ∧
    (validateItemsCall frm).method = validateItemsMethod ∧
    (validateItemsCall frm).args = [("items", frm.doc.items)] ∧
    (∀ r : Response,
      (Effect.addCustomButton "Create Items" (some "eTims Actions") ∈ validateItemsCallback r
        ↔ r.message = JSVal.bool false)) ∧
    (∀ e, validateItemsError e = [Effect.msgprint "Failed to validate items."] ∧
      buttonLabels (validateItemsError e) = []) := by
  refine ⟨by simp [registeredPurchasesRefresh, h, callsOf], rfl, rfl, ?_, fun e => ⟨rfl, rfl⟩⟩
  intro r
  rcases r with ⟨m⟩
  cases m with
  | bool b => cases b <;> simp [validateItemsCallback, isJsFalse]
  | undef => simp [validateItemsCallback, isJsFalse]
  | null => simp [validateItemsCallback, isJsFalse]
  | num n => simp [validateItemsCallback, isJsFalse]
  | str s => simp [validateItemsCallback, isJsFalse]
  | obj fs => simp [validateItemsCallback, isJsFalse]

/-- Witness for C8 at a concrete saved form, with the response message
`false` (button added) and the response message `true` (not added). -/
theorem purchases_refresh_validate_gating_witness :
    samplePurchFrm.is_new = false ∧
    callsOf (registeredPurchasesRefresh samplePurchFrm sampleBoot) =
      [validateItemsCall samplePurchFrm] ∧
    (Effect.addCustomButton "Create Items" (some "eTims Actions") ∈
      validateItemsCallback ⟨JSVal.bool false⟩ ↔
      (⟨JSVal.bool false⟩ : Response).message = JSVal.bool false) ∧
    (validateItemsError JSVal.undef = [Effect.msgprint "Failed to validate items."] ∧
      buttonLabels (validateItemsError JSVal.undef) = []) :=
  ⟨rfl,
   (purchases_refresh_validate_gating samplePurchFrm sampleBoot rfl).1,
   (purchases_refresh_validate_gating samplePurchFrm sampleBoot rfl).2.2.2.1 ⟨JSVal.bool false⟩,
   (purchases_refresh_validate_gating samplePurchFrm sampleBoot rfl).2.2.2.2 JSVal.undef⟩

/-- C9: on a new (unsaved) document neither form refresh handler
performs any effect at all — in particular no custom button is added
and no call is issued. -/
theorem new_documents_expose_no_buttons
    (ufrm : FormObj EtimsUserDoc) (pfrm : FormObj RegisteredPurchasesDoc) (boot : Boot)
    (hu : ufrm.is_new = true) (hp : pfrm.is_new = true) :
    etimsUserRefresh ufrm boot = [] ∧ registeredPurchasesRefresh pfrm boot = [] := by
  constructor
  · simp [etimsUserRefresh, hu]
  · simp [registeredPurchasesRefresh, hp]

/-- Witness for C9 at concrete new forms. -/
theorem new_documents_expose_no_buttons_witness :
    ({ sampleUserFrm with is_new := true } : FormObj EtimsUserDoc).is_new = true ∧
    ({ samplePurchFrm with is_new := true } : FormObj RegisteredPurchasesDoc).is_new = true ∧
    (etimsUserRefresh { sampleUserFrm with is_new := true } sampleBoot = [] ∧
     registeredPurchasesRefresh { samplePurchFrm with is_new := true } sampleBoot = []) :=
  ⟨rfl, rfl,
   new_documents_expose_no_buttons
     { sampleUserFrm with is_new := true }
     { samplePurchFrm with is_new := true } sampleBoot rfl rfl⟩

/-- The validate callback never issues, cancels or retries a call:
it at most adds a button. -/
theorem validateItemsCallback_fireAndForget (r : Response) :
    fireAndForget (validateItemsCallback r) = true := by
  unfold validateItemsCallback
  split <;> rfl

/-- C10: every call site is fire-and-forget: neither its success
callback (at any response) nor its error callback issues, cancels or
retries any remote call. -/
theorem every_call_site_fire_and_forget :
    ∀ site ∈ allCallSites,
      (∀ r : Response, fireAndForget (site.callbackAt r) = true) ∧
      (∀ e, fireAndForget (site.errorAt e) = true) := by
  intro site hmem
  simp [allCallSites] at hmem
  rcases hmem with rfl | rfl | rfl | rfl | rfl | rfl | rfl | rfl | rfl | rfl <;>
    first
      | exact ⟨fun r => rfl, fun e => rfl⟩
      | exact ⟨validateItemsCallback_fireAndForget, fun e => rfl⟩

/-- Witness for C10 at the validate_item_mapped_and_registered call
site, at the response message `false` and error value `undefined`. -/
theorem every_call_site_fire_and_forget_witness :
    fireAndForget (validateItemsCallback ⟨JSVal.bool false⟩) = true ∧
    fireAndForget (validateItemsError JSVal.undef) = true := by
  have hmem : CallSite.mk validateItemsMethod validateItemsCallback validateItemsError
      ∈ allCallSites := by
    simp [allCallSites]
  exact ⟨(every_call_site_fire_and_forget _ hmem).1 ⟨JSVal.bool false⟩,
         (every_call_site_fire_and_forget _ hmem).2 JSVal.undef⟩
